import Mathlib

/-
Verification of the pfsensible-core `pfsense_ipsec` module
(src/plugins/modules/pfsense_ipsec.py).

The python file consists of a declarative parameter schema (the
DOCUMENTATION block, lines 14-178), a RETURN declaration (lines 198-204)
and a `main` function (lines 210-218) that builds an `AnsibleModule`
from `IPSEC_ARGUMENT_SPEC` (validating the caller's parameters) and then
delegates to the external engine: `pfmodule.run(module.params)` followed
by `pfmodule.commit_changes()`.

The argument-spec constant, the `AnsibleModule` validation machinery and
the `PFSenseIpsecModule` engine live outside the provided source slice,
so those parts are modelled from the spec (section 6 and 7 of spec.md)
and from the DOCUMENTATION block, which enumerates every option with its
type, default, required flag and choices.
-/

namespace PfIpsec

/-- Declared python type of an option: `str`, `int` or `bool`. -/
inductive FType
| tstr
| tint
| tbool
deriving DecidableEq, Repr

/-- Runtime value supplied for an option. -/
inductive Value
| vstr (s : String)
| vint (n : Int)
| vbool (b : Bool)
deriving DecidableEq, Repr

/-- Schema entry for one option: its type, whether it is required, its
default value (if any) and its set of legal choices (if constrained). -/
structure FieldSpec where
  ftype : FType
  required : Bool
  dflt : Option Value
  choices : Option (List String)
deriving DecidableEq, Repr

/-- Abbreviation for a spec row without a default, without choices. -/
def plain (t : FType) : FieldSpec :=
  { ftype := t, required := false, dflt := none, choices := none }

/-- Modelled from the spec: `IPSEC_ARGUMENT_SPEC` is defined in
`module_utils/ipsec.py`, which is not part of the provided sources; its
rows are transcribed one-for-one from the DOCUMENTATION block of
src/plugins/modules/pfsense_ipsec.py (lines 24-177), which enumerates
each option with its type, default, required flag and choices. -/
def IPSEC_ARGUMENT_SPEC : List (String × FieldSpec) :=
  [ ("iketype",
      { ftype := .tstr, required := false, dflt := none,
        choices := some ["ikev1", "ikev2", "auto"] }),
    ("protocol",
      { ftype := .tstr, required := false, dflt := some (.vstr "inet"),
        choices := some ["inet", "inet6", "both"] }),
    ("interface", plain .tstr),
    ("remote_gateway", plain .tstr),
    ("nattport", plain .tint),
    ("disabled", plain .tbool),
    ("authentication_method",
      { ftype := .tstr, required := false, dflt := none,
        choices := some ["pre_shared_key", "rsasig"] }),
    ("mode",
      { ftype := .tstr, required := false, dflt := none,
        choices := some ["main", "aggressive"] }),
    ("myid_type",
      { ftype := .tstr, required := false, dflt := some (.vstr "myaddress"),
        choices := some ["myaddress", "address", "fqdn", "user_fqdn",
                         "asn1dn", "keyid tag", "dyn_dns", "auto"] }),
    ("myid_data", plain .tstr),
    ("peerid_type",
      { ftype := .tstr, required := false, dflt := some (.vstr "peeraddress"),
        choices := some ["any", "peeraddress", "address", "fqdn",
                         "user_fqdn", "asn1dn", "keyid tag", "auto"] }),
    ("peerid_data", plain .tstr),
    ("certificate", plain .tstr),
    ("certificate_authority", plain .tstr),
    ("preshared_key", plain .tstr),
    ("lifetime",
      { ftype := .tint, required := false, dflt := some (.vint 28800),
        choices := none }),
    ("rekey_time", plain .tint),
    ("reauth_time", plain .tint),
    ("rand_time", plain .tint),
    ("disable_rekey", plain .tbool),
    ("margintime", plain .tint),
    ("startaction",
      { ftype := .tstr, required := false, dflt := some (.vstr ""),
        choices := some ["", "none", "start", "trap"] }),
    ("closeaction",
      { ftype := .tstr, required := false, dflt := some (.vstr ""),
        choices := some ["", "none", "start", "trap"] }),
    ("responderonly", plain .tbool),
    ("disable_reauth",
      { ftype := .tbool, required := false, dflt := some (.vbool false),
        choices := none }),
    ("mobike",
      { ftype := .tstr, required := false, dflt := some (.vstr "off"),
        choices := some ["on", "off"] }),
    ("gw_duplicates", plain .tbool),
    ("splitconn",
      { ftype := .tbool, required := false, dflt := some (.vbool false),
        choices := none }),
    ("nat_traversal",
      { ftype := .tstr, required := false, dflt := some (.vstr "on"),
        choices := some ["on", "force"] }),
    ("enable_dpd",
      { ftype := .tbool, required := false, dflt := some (.vbool true),
        choices := none }),
    ("dpd_delay",
      { ftype := .tint, required := false, dflt := some (.vint 10),
        choices := none }),
    ("dpd_maxfail",
      { ftype := .tint, required := false, dflt := some (.vint 5),
        choices := none }),
    ("descr",
      { ftype := .tstr, required := true, dflt := none, choices := none }),
    ("state",
      { ftype := .tstr, required := false, dflt := some (.vstr "present"),
        choices := some ["present", "absent"] }),
    ("apply",
      { ftype := .tbool, required := false, dflt := some (.vbool true),
        choices := none }) ]

/-- Parameters as supplied by the caller: an association list from option
name to value. -/
abbrev Input := List (String × Value)

/-- Value supplied for an option, if any. -/
def lookupParam (input : Input) (n : String) : Option Value :=
  (input.find? (fun p => p.1 == n)).map Prod.snd

/-- Schema row for an option name, if declared. -/
def lookupSpec (spec : List (String × FieldSpec)) (n : String) :
    Option FieldSpec :=
  (spec.find? (fun p => p.1 == n)).map Prod.snd

/-- Whether a value has the declared type. -/
def typeOk : FType → Value → Bool
| .tstr, .vstr _ => true
| .tint, .vint _ => true
| .tbool, .vbool _ => true
| _, _ => false

/-- Whether a value satisfies the declared choice constraint (string
options only; a row with no `choices` accepts any value of its type). -/
def choiceOk (fs : FieldSpec) (v : Value) : Bool :=
  match fs.choices, v with
  | some cs, .vstr s => cs.contains s
  | some _, _ => false
  | none, _ => true

/-- Structured validation errors, as reported by the argument-spec
checking before any configuration work happens. -/
inductive ValidationError
| unknownOption (n : String)
| badType (n : String)
| invalidChoice (n : String)
| missingRequired (n : String)
| mutuallyExclusive (a b : String)
deriving DecidableEq, Repr

/-- Modelled from the spec: per-option validation performed by
`AnsibleModule` (not part of the provided sources) on each supplied
parameter: unsupported option names are rejected, values must have the
declared type, and values of choice-constrained options must be one of
the documented choices. -/
def validateOne (spec : List (String × FieldSpec)) (kv : String × Value) :
    Option ValidationError :=
  match lookupSpec spec kv.1 with
  | none => some (.unknownOption kv.1)
  | some fs =>
    if typeOk fs.ftype kv.2 = false then some (.badType kv.1)
    else if choiceOk fs kv.2 = false then some (.invalidChoice kv.1)
    else none

/-- Modelled from the spec: the full input validation performed by
`AnsibleModule` before the engine is invoked (spec.md section 7): a pair
of mutually exclusive options both supplied, a supplied option failing
its per-option check, or a required option missing, each yield a
structured validation error. Returns the first error found, or `none`
when the input is valid. -/
def firstError (spec : List (String × FieldSpec))
    (mutex : List (String × String)) (input : Input) :
    Option ValidationError :=
  match mutex.find?
      (fun ab => (lookupParam input ab.1).isSome &&
                 (lookupParam input ab.2).isSome) with
  | some ab => some (.mutuallyExclusive ab.1 ab.2)
  | none =>
    match input.findSome? (validateOne spec) with
    | some e => some e
    | none =>
      match spec.find?
          (fun p => p.2.required && (lookupParam input p.1).isNone) with
      | some p => some (.missingRequired p.1)
      | none => none

/-- Resolved value of an option: the supplied value when present,
otherwise the documented default, otherwise nothing. Modelled from the
spec: `AnsibleModule` fills absent options from the schema defaults. -/
def paramValue (spec : List (String × FieldSpec)) (input : Input)
    (n : String) : Option Value :=
  match lookupParam input n with
  | some v => some v
  | none =>
    match lookupSpec spec n with
    | some fs => fs.dflt
    | none => none

/-- Resolved string value of an option (empty string when unset). -/
def getStr (spec : List (String × FieldSpec)) (input : Input)
    (n : String) : String :=
  match paramValue spec input n with
  | some (.vstr s) => s
  | _ => ""

/-- Resolved boolean value of an option (false when unset). -/
def getBool (spec : List (String × FieldSpec)) (input : Input)
    (n : String) : Bool :=
  match paramValue spec input n with
  | some (.vbool b) => b
  | _ => false

/-- Target configuration: the phase-1 entries of the pfSense ipsec
section, an association list from tunnel description to its parameter
set. -/
abbrev Config := List (String × Input)

/-- Whether the configuration holds a tunnel with the given description. -/
def hasTunnel (cfg : Config) (d : String) : Bool :=
  (cfg.find? (fun t => t.1 == d)).isSome

/-- Parameter set of the tunnel with the given description, if present. -/
def getTunnel (cfg : Config) (d : String) : Option Input :=
  (cfg.find? (fun t => t.1 == d)).map Prod.snd

/-- Modelled from the spec: `PFSenseIpsecModule.run` (module_utils, not
part of the provided sources) diffs the desired tunnel against the
current configuration and stages the change, producing the
human-readable change descriptors: with `state=absent` the tunnel named
by `descr` is deleted if present; otherwise (`state=present`, the
default) the tunnel is created when absent, left alone when already
equal, and updated in place when different. Returns the change
descriptors and the staged configuration. -/
def runStep (spec : List (String × FieldSpec)) (input : Input)
    (cfg : Config) : List String × Config :=
  if getStr spec input "state" = "absent" then
    if hasTunnel cfg (getStr spec input "descr") then
      (["delete ipsec " ++ getStr spec input "descr"],
       cfg.filter (fun t => !(t.1 == getStr spec input "descr")))
    else ([], cfg)
  else
    match cfg.find? (fun t => t.1 == getStr spec input "descr") with
    | none =>
      (["create ipsec " ++ getStr spec input "descr"],
       (getStr spec input "descr", input) :: cfg)
    | some t =>
      if t.2 = input then ([], cfg)
      else (["update ipsec " ++ getStr spec input "descr"],
            cfg.map (fun u =>
              if u.1 == getStr spec input "descr" then
                (getStr spec input "descr", input)
              else u))

/-- Modelled from the spec: `PFSenseIpsecModule.commit_changes`
(module_utils, not part of the provided sources). In check (dry-run)
mode nothing is written to the target; otherwise, when the `apply`
option is true the staged configuration is committed to the target,
and when it is false the staged changes are recorded but not committed
in this invocation. Returns the target configuration after the call and
the staged-but-uncommitted configuration, if any. -/
def commit_changes (checkMode : Bool) (applyFlag : Bool)
    (cfg staged : Config) : Config × Option Config :=
  if checkMode then (cfg, some staged)
  else if applyFlag then (staged, none)
  else (cfg, some staged)

/-- Outcome of one module invocation: failure flag, the validation error
(if any), the returned change descriptors, the target configuration
after the invocation, and staged changes not committed (if any). -/
structure ExecResult where
  failed : Bool
  err : Option ValidationError
  commands : List String
  committed : Config
  staged : Option Config
deriving DecidableEq, Repr

/-- Embedding of `main` (src/plugins/modules/pfsense_ipsec.py lines
210-218): `AnsibleModule` validates the parameters (failing, with no
configuration touched, on a validation error), then `pfmodule.run`
stages the change and produces the change descriptors, then
`pfmodule.commit_changes` commits them. The mutually-exclusive
declaration is a parameter because it lives in the argument-spec module
outside the provided sources; `checkMode` reflects Ansible check mode
(`supports_check_mode=True`). -/
def executeModule (mutex : List (String × String)) (checkMode : Bool)
    (input : Input) (cfg : Config) : ExecResult :=
  match firstError IPSEC_ARGUMENT_SPEC mutex input with
  | some e =>
    { failed := true, err := some e, commands := [],
      committed := cfg, staged := none }
  | none =>
    let rc := runStep IPSEC_ARGUMENT_SPEC input cfg
    let fin := commit_changes checkMode
        (getBool IPSEC_ARGUMENT_SPEC input "apply") cfg rc.2
    { failed := false, err := none, commands := rc.1,
      committed := fin.1, staged := fin.2 }

/-- Calls observable in `main` (lines 210-218): the validation failure
exit, the call to `pfmodule.run`, and the call to
`pfmodule.commit_changes`. -/
inductive Event
| failValidation (e : ValidationError)
| runCall
| commitCall
deriving DecidableEq, Repr

/-- Trace of `main` (lines 210-218): `AnsibleModule(...)` exits with the
validation error when the parameters are invalid; otherwise `main` is
exactly `pfmodule.run(module.params)` followed by
`pfmodule.commit_changes()`. -/
def mainEvents (mutex : List (String × String)) (input : Input) :
    List Event :=
  match firstError IPSEC_ARGUMENT_SPEC mutex input with
  | some e => [.failValidation e]
  | none => [.runCall, .commitCall]

/-! ## Helper lemmas -/

/-- When validation fails, `main` exits through the validation error:
nothing is run, nothing is committed, the target is untouched. -/
theorem executeModule_of_error (mutex : List (String × String))
    (cm : Bool) (input : Input) (cfg : Config) (e : ValidationError)
    (he : firstError IPSEC_ARGUMENT_SPEC mutex input = some e) :
    executeModule mutex cm input cfg =
      { failed := true, err := some e, commands := [],
        committed := cfg, staged := none } := by
  unfold executeModule
  rw [he]

/-- When validation fails, the trace of `main` is the validation exit. -/
theorem mainEvents_of_error (mutex : List (String × String))
    (input : Input) (e : ValidationError)
    (he : firstError IPSEC_ARGUMENT_SPEC mutex input = some e) :
    mainEvents mutex input = [Event.failValidation e] := by
  unfold mainEvents
  rw [he]

/-- On valid input, one invocation is the run step followed by the
commit step. -/
theorem executeModule_of_ok (mutex : List (String × String)) (cm : Bool)
    (input : Input) (cfg : Config)
    (h : firstError IPSEC_ARGUMENT_SPEC mutex input = none) :
    executeModule mutex cm input cfg =
      { failed := false, err := none,
        commands := (runStep IPSEC_ARGUMENT_SPEC input cfg).1,
        committed := (commit_changes cm (getBool IPSEC_ARGUMENT_SPEC input "apply")
          cfg (runStep IPSEC_ARGUMENT_SPEC input cfg).2).1,
        staged := (commit_changes cm (getBool IPSEC_ARGUMENT_SPEC input "apply")
          cfg (runStep IPSEC_ARGUMENT_SPEC input cfg).2).2 } := by
  unfold executeModule
  rw [h]

/-- A supplied parameter that fails its per-option check forces the
whole validation to fail. -/
theorem firstError_isSome_of_bad (mutex : List (String × String))
    (input : Input) (kv : String × Value) (hmem : kv ∈ input)
    (hbad : validateOne IPSEC_ARGUMENT_SPEC kv ≠ none) :
    ∃ e, firstError IPSEC_ARGUMENT_SPEC mutex input = some e := by
  unfold firstError
  cases hm : mutex.find?
      (fun ab => (lookupParam input ab.1).isSome &&
                 (lookupParam input ab.2).isSome) with
  | some ab => exact ⟨_, rfl⟩
  | none =>
    cases hfs : input.findSome? (validateOne IPSEC_ARGUMENT_SPEC) with
    | some e => exact ⟨e, rfl⟩
    | none =>
      exact absurd (List.findSome?_eq_none_iff.mp hfs kv hmem) hbad

/-- Deleting a key from an association list removes every binding of it. -/
theorem find?_filter_out (cfg : Config) (d : String) :
    (cfg.filter (fun t => !(t.1 == d))).find? (fun t => t.1 == d) = none := by
  induction cfg with
  | nil => rfl
  | cons u rest ih =>
    by_cases hu : (u.1 == d) = true
    · simp [List.filter_cons, hu, ih]
    · have hu' : (u.1 == d) = false := by simpa using hu
      simp [List.filter_cons, hu', ih]

/-- Updating a key that is bound in an association list makes the first
binding of that key hold the new value. -/
theorem find?_map_update (cfg : Config) (d : String) (input : Input)
    (t : String × Input)
    (h : cfg.find? (fun u => u.1 == d) = some t) :
    (cfg.map (fun u => if u.1 == d then (d, input) else u)).find?
        (fun u => u.1 == d) = some (d, input) := by
  induction cfg with
  | nil => simp at h
  | cons u rest ih =>
    by_cases hu : (u.1 == d) = true
    · have hkey : (((d, input) : String × Input).1 == d) = true :=
        beq_self_eq_true d
      simp only [List.map_cons, if_pos hu, List.find?_cons, hkey,
        beq_self_eq_true]
    · have hu' : (u.1 == d) = false := by simpa using hu
      rw [List.find?_cons, hu'] at h
      simp only [List.map_cons, if_neg hu]
      rw [List.find?_cons, hu']
      exact ih h

/-- Updating one key of an association list never removes another key. -/
theorem hasTunnel_map_update (cfg : Config) (d t : String) (input : Input)
    (h : hasTunnel cfg t = true) :
    hasTunnel (cfg.map (fun u => if u.1 == d then (d, input) else u)) t
      = true := by
  unfold hasTunnel at h ⊢
  rw [List.find?_isSome] at h ⊢
  obtain ⟨x, hx, hxt⟩ := h
  refine ⟨(fun u => if u.1 == d then (d, input) else u) x,
    List.mem_map_of_mem _ hx, ?_⟩
  by_cases hxd : (x.1 == d) = true
  · have h1 : x.1 = d := eq_of_beq hxd
    have h2 : x.1 = t := eq_of_beq hxt
    simp only [if_pos hxd]
    exact beq_iff_eq.mpr (h1 ▸ h2)
  · simp only [if_neg hxd]
    exact hxt

/-! ## Claims -/

/-- C3: on every valid input, `main` is exactly the two-call delegation
to the external engine: the run (configure) step followed by the commit
step, in that order, each exactly once, and nothing else. -/
theorem main_is_two_call_delegation (mutex : List (String × String))
    (input : Input)
    (h : firstError IPSEC_ARGUMENT_SPEC mutex input = none) :
    mainEvents mutex input = [Event.runCall, Event.commitCall] := by
  unfold mainEvents
  rw [h]

/-- Witness for C3 at a concrete valid input. -/
theorem main_is_two_call_delegation_witness :
    mainEvents [] [("descr", Value.vstr "test_tunnel")]
      = [Event.runCall, Event.commitCall] :=
  main_is_two_call_delegation [] [("descr", Value.vstr "test_tunnel")] rfl

/-- C4: every successful invocation does not fail and returns the list
of human-readable change descriptors computed by the run step, whatever
the check-mode flag and the current target configuration are, including
when that list is empty because no change was needed. -/
theorem commands_always_returned (mutex : List (String × String))
    (cm : Bool) (input : Input) (cfg : Config)
    (h : firstError IPSEC_ARGUMENT_SPEC mutex input = none) :
    (executeModule mutex cm input cfg).failed = false ∧
    (executeModule mutex cm input cfg).commands
      = (runStep IPSEC_ARGUMENT_SPEC input cfg).1 := by
  rw [executeModule_of_ok mutex cm input cfg h]
  exact ⟨rfl, rfl⟩

/-- Witness for C4 at a concrete input where no change is needed
(deleting an absent tunnel), so the returned descriptor list is empty
but still returned. -/
theorem commands_always_returned_witness :
    (executeModule [] false
        [("descr", Value.vstr "t1"), ("state", Value.vstr "absent")]
        []).failed = false ∧
    (executeModule [] false
        [("descr", Value.vstr "t1"), ("state", Value.vstr "absent")]
        []).commands
      = (runStep IPSEC_ARGUMENT_SPEC
          [("descr", Value.vstr "t1"), ("state", Value.vstr "absent")] []).1 :=
  commands_always_returned [] false
    [("descr", Value.vstr "t1"), ("state", Value.vstr "absent")] [] rfl

/-- C5: in check (dry-run) mode, a valid invocation computes and returns
the change descriptors and stages the changed configuration, but commits
nothing: the target configuration is exactly what it was before. -/
theorem check_mode_commits_nothing (mutex : List (String × String))
    (input : Input) (cfg : Config)
    (h : firstError IPSEC_ARGUMENT_SPEC mutex input = none) :
    (executeModule mutex true input cfg).committed = cfg ∧
    (executeModule mutex true input cfg).commands
      = (runStep IPSEC_ARGUMENT_SPEC input cfg).1 ∧
    (executeModule mutex true input cfg).staged
      = some (runStep IPSEC_ARGUMENT_SPEC input cfg).2 := by
  rw [executeModule_of_ok mutex true input cfg h]
  exact ⟨rfl, rfl, rfl⟩

/-- Witness for C5 at a concrete input that would create a tunnel: in
check mode the target stays empty. -/
theorem check_mode_commits_nothing_witness :
    (executeModule [] true [("descr", Value.vstr "t1")] []).committed = [] ∧
    (executeModule [] true [("descr", Value.vstr "t1")] []).commands
      = (runStep IPSEC_ARGUMENT_SPEC [("descr", Value.vstr "t1")] []).1 ∧
    (executeModule [] true [("descr", Value.vstr "t1")] []).staged
      = some (runStep IPSEC_ARGUMENT_SPEC [("descr", Value.vstr "t1")] []).2 :=
  check_mode_commits_nothing [] [("descr", Value.vstr "t1")] [] rfl

/-- C1: an input whose value for an option violates that option's
documented choice constraint is rejected with a validation error: the
invocation fails, the target configuration is not mutated, and neither
the engine's run step nor its commit step is ever reached. -/
theorem choice_violation_rejected (mutex : List (String × String))
    (cm : Bool) (input : Input) (cfg : Config) (n s : String)
    (fs : FieldSpec) (cs : List String)
    (hmem : (n, Value.vstr s) ∈ input)
    (hspec : lookupSpec IPSEC_ARGUMENT_SPEC n = some fs)
    (hcs : fs.choices = some cs) (hviol : s ∉ cs) :
    (executeModule mutex cm input cfg).failed = true ∧
    (∃ e, (executeModule mutex cm input cfg).err = some e) ∧
    (executeModule mutex cm input cfg).committed = cfg ∧
    Event.runCall ∉ mainEvents mutex input ∧
    Event.commitCall ∉ mainEvents mutex input := by
  have hbad : validateOne IPSEC_ARGUMENT_SPEC (n, Value.vstr s) ≠ none := by
    unfold validateOne
    simp only [hspec]
    cases ht : typeOk fs.ftype (Value.vstr s) with
    | false => simp [ht]
    | true =>
      have hco : choiceOk fs (Value.vstr s) = false := by
        unfold choiceOk
        rw [hcs]
        simpa using hviol
      simp [ht, hco]
  obtain ⟨e, he⟩ := firstError_isSome_of_bad mutex input
    (n, Value.vstr s) hmem hbad
  rw [executeModule_of_error mutex cm input cfg e he,
    mainEvents_of_error mutex input e he]
  exact ⟨rfl, ⟨e, rfl⟩, rfl, by simp, by simp⟩

/-- Witness for C1: `iketype=ikev3` is outside the documented choices,
so the invocation fails without mutating the target. -/
theorem choice_violation_rejected_witness :
    (executeModule [] false
        [("descr", Value.vstr "t1"), ("iketype", Value.vstr "ikev3")]
        [("t0", [])]).failed = true ∧
    (∃ e, (executeModule [] false
        [("descr", Value.vstr "t1"), ("iketype", Value.vstr "ikev3")]
        [("t0", [])]).err = some e) ∧
    (executeModule [] false
        [("descr", Value.vstr "t1"), ("iketype", Value.vstr "ikev3")]
        [("t0", [])]).committed = [("t0", [])] ∧
    Event.runCall ∉ mainEvents []
        [("descr", Value.vstr "t1"), ("iketype", Value.vstr "ikev3")] ∧
    Event.commitCall ∉ mainEvents []
        [("descr", Value.vstr "t1"), ("iketype", Value.vstr "ikev3")] :=
  choice_violation_rejected [] false
    [("descr", Value.vstr "t1"), ("iketype", Value.vstr "ikev3")]
    [("t0", [])] "iketype" "ikev3"
    { ftype := .tstr, required := false, dflt := none,
      choices := some ["ikev1", "ikev2", "auto"] }
    ["ikev1", "ikev2", "auto"]
    (by simp) rfl rfl (by decide)

/-- C2: an input in which a declared pair of mutually exclusive options
are both supplied is rejected with a structured validation error before
any mutation: the invocation fails, the target configuration is
untouched, and neither engine step is reached. -/
theorem mutually_exclusive_rejected (mutex : List (String × String))
    (cm : Bool) (input : Input) (cfg : Config) (a b : String)
    (hdecl : (a, b) ∈ mutex)
    (ha : (lookupParam input a).isSome = true)
    (hb : (lookupParam input b).isSome = true) :
    (executeModule mutex cm input cfg).failed = true ∧
    (∃ x y, (executeModule mutex cm input cfg).err
      = some (ValidationError.mutuallyExclusive x y)) ∧
    (executeModule mutex cm input cfg).committed = cfg ∧
    Event.runCall ∉ mainEvents mutex input ∧
    Event.commitCall ∉ mainEvents mutex input := by
  have hfind : (mutex.find?
      (fun ab => (lookupParam input ab.1).isSome &&
                 (lookupParam input ab.2).isSome)).isSome = true := by
    rw [List.find?_isSome]
    exact ⟨(a, b), hdecl, by simp [ha, hb]⟩
  cases hm : mutex.find?
      (fun ab => (lookupParam input ab.1).isSome &&
                 (lookupParam input ab.2).isSome) with
  | none => rw [hm] at hfind; simp at hfind
  | some ab =>
    have he : firstError IPSEC_ARGUMENT_SPEC mutex input
        = some (ValidationError.mutuallyExclusive ab.1 ab.2) := by
      unfold firstError
      rw [hm]
    rw [executeModule_of_error mutex cm input cfg _ he,
      mainEvents_of_error mutex input _ he]
    exact ⟨rfl, ⟨ab.1, ab.2, rfl⟩, rfl, by simp, by simp⟩

/-- Witness for C2 at a concrete declaration making `certificate` and
`preshared_key` mutually exclusive, with both supplied. -/
theorem mutually_exclusive_rejected_witness :
    (executeModule [("certificate", "preshared_key")] false
        [("descr", Value.vstr "t1"), ("certificate", Value.vstr "c"),
         ("preshared_key", Value.vstr "k")] []).failed = true ∧
    (∃ x y, (executeModule [("certificate", "preshared_key")] false
        [("descr", Value.vstr "t1"), ("certificate", Value.vstr "c"),
         ("preshared_key", Value.vstr "k")] []).err
      = some (ValidationError.mutuallyExclusive x y)) ∧
    (executeModule [("certificate", "preshared_key")] false
        [("descr", Value.vstr "t1"), ("certificate", Value.vstr "c"),
         ("preshared_key", Value.vstr "k")] []).committed = [] ∧
    Event.runCall ∉ mainEvents [("certificate", "preshared_key")]
        [("descr", Value.vstr "t1"), ("certificate", Value.vstr "c"),
         ("preshared_key", Value.vstr "k")] ∧
    Event.commitCall ∉ mainEvents [("certificate", "preshared_key")]
        [("descr", Value.vstr "t1"), ("certificate", Value.vstr "c"),
         ("preshared_key", Value.vstr "k")] :=
  mutually_exclusive_rejected [("certificate", "preshared_key")] false
    [("descr", Value.vstr "t1"), ("certificate", Value.vstr "c"),
     ("preshared_key", Value.vstr "k")] []
    "certificate" "preshared_key" (by simp) rfl rfl

/-- An input that does not supply `descr` cannot pass validation: the
schema marks `descr`, and only `descr`, as required. -/
theorem firstError_isSome_of_missing_descr (mutex : List (String × String))
    (input : Input) (h : lookupParam input "descr" = none) :
    ∃ e, firstError IPSEC_ARGUMENT_SPEC mutex input = some e := by
  unfold firstError
  cases hm : mutex.find?
      (fun ab => (lookupParam input ab.1).isSome &&
                 (lookupParam input ab.2).isSome) with
  | some ab => exact ⟨_, rfl⟩
  | none =>
    cases hfs : input.findSome? (validateOne IPSEC_ARGUMENT_SPEC) with
    | some e => exact ⟨e, rfl⟩
    | none =>
      have hreq : IPSEC_ARGUMENT_SPEC.find?
          (fun p => p.2.required && (lookupParam input p.1).isNone)
          = some ("descr",
              { ftype := .tstr, required := true, dflt := none,
                choices := none }) := by
        simp [IPSEC_ARGUMENT_SPEC, plain, List.find?, h]
      rw [hreq]
      exact ⟨_, rfl⟩

/-- C6: the `descr` option is required: every input omitting it fails
validation before any mutation of the target; and `descr` itself is
unconstrained, so the per-option check accepts any string value for it. -/
theorem descr_required_any_string (mutex : List (String × String))
    (cm : Bool) (input : Input) (cfg : Config) :
    (lookupParam input "descr" = none →
      (executeModule mutex cm input cfg).failed = true ∧
      (∃ e, (executeModule mutex cm input cfg).err = some e) ∧
      (executeModule mutex cm input cfg).committed = cfg) ∧
    (∀ s, validateOne IPSEC_ARGUMENT_SPEC ("descr", Value.vstr s) = none) := by
  constructor
  · intro h
    obtain ⟨e, he⟩ := firstError_isSome_of_missing_descr mutex input h
    rw [executeModule_of_error mutex cm input cfg e he]
    exact ⟨rfl, ⟨e, rfl⟩, rfl⟩
  · intro s
    have hd : lookupSpec IPSEC_ARGUMENT_SPEC "descr"
        = some { ftype := .tstr, required := true, dflt := none,
                 choices := none } := rfl
    simp [validateOne, hd, typeOk, choiceOk]

/-- Witness for C6: an input giving only `iketype` omits `descr` and is
rejected with the target untouched; and `descr` accepts an arbitrary
string. -/
theorem descr_required_any_string_witness :
    ((executeModule [] false [("iketype", Value.vstr "ikev2")]
        [("t0", [])]).failed = true ∧
      (∃ e, (executeModule [] false [("iketype", Value.vstr "ikev2")]
        [("t0", [])]).err = some e) ∧
      (executeModule [] false [("iketype", Value.vstr "ikev2")]
        [("t0", [])]).committed = [("t0", [])]) ∧
    validateOne IPSEC_ARGUMENT_SPEC
      ("descr", Value.vstr "my tunnel") = none :=
  ⟨(descr_required_any_string [] false [("iketype", Value.vstr "ikev2")]
      [("t0", [])]).1 rfl,
   (descr_required_any_string [] false [("iketype", Value.vstr "ikev2")]
      [("t0", [])]).2 "my tunnel"⟩

/-- C7: the `state` option accepts exactly `present` and `absent` (any
other string fails the per-option check); with `state=present` the run
step leaves the tunnel named by `descr` present in the staged
configuration, bound to the desired parameters (created or updated);
with `state=absent` the run step removes it. -/
theorem state_present_absent_semantics (input : Input) (cfg : Config) :
    (∀ s, validateOne IPSEC_ARGUMENT_SPEC ("state", Value.vstr s) = none
      ↔ (s = "present" ∨ s = "absent")) ∧
    (getStr IPSEC_ARGUMENT_SPEC input "state" = "present" →
      getTunnel (runStep IPSEC_ARGUMENT_SPEC input cfg).2
        (getStr IPSEC_ARGUMENT_SPEC input "descr") = some input) ∧
    (getStr IPSEC_ARGUMENT_SPEC input "state" = "absent" →
      hasTunnel (runStep IPSEC_ARGUMENT_SPEC input cfg).2
        (getStr IPSEC_ARGUMENT_SPEC input "descr") = false) := by
  refine ⟨?_, ?_, ?_⟩
  · intro s
    have hst : lookupSpec IPSEC_ARGUMENT_SPEC "state"
        = some { ftype := .tstr, required := false,
                 dflt := some (.vstr "present"),
                 choices := some ["present", "absent"] } := rfl
    simp [validateOne, hst, typeOk, choiceOk]
    tauto
  · intro hp
    unfold runStep
    rw [if_neg (by simp [hp])]
    cases hf : cfg.find?
        (fun t => t.1 == getStr IPSEC_ARGUMENT_SPEC input "descr") with
    | none =>
      unfold getTunnel
      simp [List.find?_cons]
    | some t =>
      dsimp only
      by_cases ht : t.2 = input
      · rw [if_pos ht]
        unfold getTunnel
        rw [hf]
        simp [ht]
      · rw [if_neg ht]
        unfold getTunnel
        rw [find?_map_update cfg (getStr IPSEC_ARGUMENT_SPEC input "descr")
          input t hf]
        rfl
  · intro ha
    unfold runStep
    rw [if_pos ha]
    by_cases hh : hasTunnel cfg (getStr IPSEC_ARGUMENT_SPEC input "descr")
        = true
    · rw [if_pos hh]
      unfold hasTunnel
      rw [find?_filter_out]
      rfl
    · rw [if_neg hh]
      simpa using hh

/-- Witness for C7: `present` and `absent` pass the choice check, a
rejected third value is refused, creating works on an empty target, and
deleting removes an existing tunnel. -/
theorem state_present_absent_semantics_witness :
    ((validateOne IPSEC_ARGUMENT_SPEC ("state", Value.vstr "present")
        = none ↔ ("present" = "present" ∨ "present" = "absent")) ∧
      getTunnel (runStep IPSEC_ARGUMENT_SPEC [("descr", Value.vstr "t1")]
          []).2
        (getStr IPSEC_ARGUMENT_SPEC [("descr", Value.vstr "t1")] "descr")
        = some [("descr", Value.vstr "t1")]) ∧
    hasTunnel (runStep IPSEC_ARGUMENT_SPEC
        [("descr", Value.vstr "t1"), ("state", Value.vstr "absent")]
        [("t1", [("descr", Value.vstr "t1")])]).2
      (getStr IPSEC_ARGUMENT_SPEC
        [("descr", Value.vstr "t1"), ("state", Value.vstr "absent")]
        "descr") = false :=
  ⟨⟨(state_present_absent_semantics [("descr", Value.vstr "t1")] []).1
      "present",
    (state_present_absent_semantics [("descr", Value.vstr "t1")] []).2.1
      rfl⟩,
   (state_present_absent_semantics
      [("descr", Value.vstr "t1"), ("state", Value.vstr "absent")]
      [("t1", [("descr", Value.vstr "t1")])]).2.2 rfl⟩

/-- C8: the `apply` option defaults to true in the schema; on a valid
invocation (outside check mode), when `apply` is omitted or true the
staged configuration produced by the run step is committed to the
target, and when `apply` is false the staged changes are recorded but
not committed in this invocation. -/
theorem apply_option_semantics (mutex : List (String × String))
    (input : Input) (cfg : Config)
    (h : firstError IPSEC_ARGUMENT_SPEC mutex input = none) :
    lookupSpec IPSEC_ARGUMENT_SPEC "apply"
      = some { ftype := .tbool, required := false,
               dflt := some (.vbool true), choices := none } ∧
    ((lookupParam input "apply" = none ∨
        lookupParam input "apply" = some (Value.vbool true)) →
      (executeModule mutex false input cfg).committed
        = (runStep IPSEC_ARGUMENT_SPEC input cfg).2 ∧
      (executeModule mutex false input cfg).staged = none) ∧
    (lookupParam input "apply" = some (Value.vbool false) →
      (executeModule mutex false input cfg).committed = cfg ∧
      (executeModule mutex false input cfg).staged
        = some (runStep IPSEC_ARGUMENT_SPEC input cfg).2) := by
  have hap : lookupSpec IPSEC_ARGUMENT_SPEC "apply"
      = some { ftype := .tbool, required := false,
               dflt := some (.vbool true), choices := none } := rfl
  refine ⟨hap, ?_, ?_⟩
  · intro h0
    have hb : getBool IPSEC_ARGUMENT_SPEC input "apply" = true := by
      rcases h0 with h0 | h0 <;> simp [getBool, paramValue, h0, hap]
    rw [executeModule_of_ok mutex false input cfg h]
    simp [commit_changes, hb]
  · intro h0
    have hb : getBool IPSEC_ARGUMENT_SPEC input "apply" = false := by
      simp [getBool, paramValue, h0]
    rw [executeModule_of_ok mutex false input cfg h]
    simp [commit_changes, hb]

/-- Witness for C8: with `apply` omitted, a created tunnel lands in the
committed target; with `apply=false`, the target stays as it was and
the change is only staged. -/
theorem apply_option_semantics_witness :
    ((executeModule [] false [("descr", Value.vstr "t1")] []).committed
        = (runStep IPSEC_ARGUMENT_SPEC [("descr", Value.vstr "t1")] []).2 ∧
      (executeModule [] false [("descr", Value.vstr "t1")] []).staged
        = none) ∧
    ((executeModule [] false
        [("descr", Value.vstr "t1"), ("apply", Value.vbool false)]
        []).committed = [] ∧
      (executeModule [] false
        [("descr", Value.vstr "t1"), ("apply", Value.vbool false)]
        []).staged
        = some (runStep IPSEC_ARGUMENT_SPEC
            [("descr", Value.vstr "t1"), ("apply", Value.vbool false)]
            []).2) :=
  ⟨(apply_option_semantics [] [("descr", Value.vstr "t1")] [] rfl).2.1
      (Or.inl rfl),
   (apply_option_semantics []
      [("descr", Value.vstr "t1"), ("apply", Value.vbool false)] []
      rfl).2.2 rfl⟩

/-- C9: an input that omits `state` resolves it to `present`, and with
that resolution the run step never deletes a tunnel: every description
present in the configuration before the run step is still present after
it. -/
theorem omitted_state_never_deletes (input : Input) (cfg : Config)
    (t : String) (hs : lookupParam input "state" = none) :
    getStr IPSEC_ARGUMENT_SPEC input "state" = "present" ∧
    (hasTunnel cfg t = true →
      hasTunnel (runStep IPSEC_ARGUMENT_SPEC input cfg).2 t = true) := by
  have hst : lookupSpec IPSEC_ARGUMENT_SPEC "state"
      = some { ftype := .tstr, required := false,
               dflt := some (.vstr "present"),
               choices := some ["present", "absent"] } := rfl
  have hval : getStr IPSEC_ARGUMENT_SPEC input "state" = "present" := by
    simp [getStr, paramValue, hs, hst]
  refine ⟨hval, ?_⟩
  intro hh
  unfold runStep
  rw [if_neg (by simp [hval])]
  cases hf : cfg.find?
      (fun u => u.1 == getStr IPSEC_ARGUMENT_SPEC input "descr") with
  | none =>
    dsimp only
    unfold hasTunnel at hh ⊢
    rw [List.find?_isSome] at hh ⊢
    obtain ⟨x, hx, hxt⟩ := hh
    exact ⟨x, List.mem_cons_of_mem _ hx, hxt⟩
  | some u =>
    dsimp only
    by_cases hu : u.2 = input
    · rw [if_pos hu]
      exact hh
    · rw [if_neg hu]
      exact hasTunnel_map_update cfg
        (getStr IPSEC_ARGUMENT_SPEC input "descr") t input hh

/-- Witness for C9: omitting `state` while an unrelated tunnel exists
leaves that tunnel in place after the run step. -/
theorem omitted_state_never_deletes_witness :
    getStr IPSEC_ARGUMENT_SPEC [("descr", Value.vstr "t1")] "state"
      = "present" ∧
    hasTunnel (runStep IPSEC_ARGUMENT_SPEC [("descr", Value.vstr "t1")]
        [("t0", [("descr", Value.vstr "t0")])]).2 "t0" = true :=
  ⟨(omitted_state_never_deletes [("descr", Value.vstr "t1")]
      [("t0", [("descr", Value.vstr "t0")])] "t0" rfl).1,
   (omitted_state_never_deletes [("descr", Value.vstr "t1")]
      [("t0", [("descr", Value.vstr "t0")])] "t0" rfl).2 rfl⟩

/-- C10: `startaction` and `closeaction` each accept exactly the four
values `''`, `none`, `start` and `trap`; each defaults to the empty
string, which is a legal choice distinct from `none`; and omitting
either option resolves it to the empty string. -/
theorem startaction_closeaction_schema (input : Input) :
    lookupSpec IPSEC_ARGUMENT_SPEC "startaction"
      = some { ftype := .tstr, required := false, dflt := some (.vstr ""),
               choices := some ["", "none", "start", "trap"] } ∧
    lookupSpec IPSEC_ARGUMENT_SPEC "closeaction"
      = some { ftype := .tstr, required := false, dflt := some (.vstr ""),
               choices := some ["", "none", "start", "trap"] } ∧
    (∀ s, validateOne IPSEC_ARGUMENT_SPEC ("startaction", Value.vstr s)
        = none ↔ (s = "" ∨ s = "none" ∨ s = "start" ∨ s = "trap")) ∧
    (∀ s, validateOne IPSEC_ARGUMENT_SPEC ("closeaction", Value.vstr s)
        = none ↔ (s = "" ∨ s = "none" ∨ s = "start" ∨ s = "trap")) ∧
    ("" : String) ≠ "none" ∧
    (lookupParam input "startaction" = none →
      paramValue IPSEC_ARGUMENT_SPEC input "startaction"
        = some (Value.vstr "")) ∧
    (lookupParam input "closeaction" = none →
      paramValue IPSEC_ARGUMENT_SPEC input "closeaction"
        = some (Value.vstr "")) := by
  have h1 : lookupSpec IPSEC_ARGUMENT_SPEC "startaction"
      = some { ftype := .tstr, required := false, dflt := some (.vstr ""),
               choices := some ["", "none", "start", "trap"] } := rfl
  have h2 : lookupSpec IPSEC_ARGUMENT_SPEC "closeaction"
      = some { ftype := .tstr, required := false, dflt := some (.vstr ""),
               choices := some ["", "none", "start", "trap"] } := rfl
  refine ⟨h1, h2, ?_, ?_, by decide, ?_, ?_⟩
  · intro s
    simp [validateOne, h1, typeOk, choiceOk]
    tauto
  · intro s
    simp [validateOne, h2, typeOk, choiceOk]
    tauto
  · intro h0
    simp [paramValue, h0, h1]
  · intro h0
    simp [paramValue, h0, h2]

/-- Witness for C10: `trap` is accepted for `startaction`, and on an
empty input both options resolve to the empty string. -/
theorem startaction_closeaction_schema_witness :
    (validateOne IPSEC_ARGUMENT_SPEC ("startaction", Value.vstr "trap")
      = none ↔ (("trap" : String) = "" ∨ ("trap" : String) = "none" ∨
        ("trap" : String) = "start" ∨ ("trap" : String) = "trap")) ∧
    paramValue IPSEC_ARGUMENT_SPEC [] "startaction"
      = some (Value.vstr "") ∧
    paramValue IPSEC_ARGUMENT_SPEC [] "closeaction"
      = some (Value.vstr "") :=
  ⟨(startaction_closeaction_schema []).2.2.1 "trap",
   (startaction_closeaction_schema []).2.2.2.2.2.1 rfl,
   (startaction_closeaction_schema []).2.2.2.2.2.2 rfl⟩

end PfIpsec
